import Mathlib

/-!
Shallow embedding of the Go observability tutorial service
(src/unnamed/part_001, the fully instrumented variant, together with the
earlier variant src/4_exposing_http_request_metric/golang-app/main.go).
Time is modelled in integral milliseconds; the random source consumed by
`rand.Intn` is abstracted as an arbitrary natural number.
-/

namespace GoApp

/-- Go `rand.Intn n` returns a value in `[0, n)` (and is never negative);
the hidden random state is abstracted as the input `x`. -/
def randIntn (n : Nat) (x : Nat) : Nat := x % n

/-- `Data` struct: `OrderID int` with tag `json:"order_id"`. -/
structure Data where
  orderId : Nat
deriving DecidableEq, Repr

/-- `Error` struct: `Message`, `Description`, both tagged `,omitempty`. -/
structure Error where
  message : String
  description : String
deriving DecidableEq, Repr

/-- `ResponseData` struct: `Data` tagged `json:"data"`, `Error` tagged
`json:"error,omitempty"`. -/
structure ResponseData where
  data : Data
  error : Error
deriving DecidableEq, Repr

/-- JSON values, restricted to the shapes this service serializes. -/
inductive Json where
  | num (n : Nat)
  | str (s : String)
  | obj (fields : List (String × Json))
deriving Repr

/-- First binding of a key in a JSON object's field list. -/
def lookupField : List (String × Json) → String → Option Json
  | [], _ => none
  | (k, v) :: rest, key => if k = key then some v else lookupField rest key

/-- Whether a JSON object carries the given key. -/
def hasKey (j : Json) (key : String) : Bool :=
  match j with
  | .obj fields => (lookupField fields key).isSome
  | _ => false

/-- encoding/json on `Data`: always emits `order_id`. -/
def encodeData (d : Data) : Json :=
  .obj [("order_id", .num d.orderId)]

/-- encoding/json on `Error`: `omitempty` on a string field drops it when
it is the empty string. -/
def encodeError (e : Error) : Json :=
  .obj ((if e.message = "" then [] else [("message", .str e.message)]) ++
        (if e.description = "" then [] else [("description", .str e.description)]))

/-- encoding/json on `ResponseData`. Go's `omitempty` has no effect on a
struct-typed field, so the `error` key is always emitted. -/
def encodeResponseData (rd : ResponseData) : Json :=
  .obj [("data", encodeData rd.data), ("error", encodeError rd.error)]

/-- json.Unmarshal into `Data`: a missing key leaves the zero value, a
key of the wrong type is an error. -/
def decodeData : Json → Option Data
  | .obj fields =>
    match lookupField fields "order_id" with
    | some (.num n) => some ⟨n⟩
    | some _ => none
    | none => some ⟨0⟩
  | _ => none

/-- json.Unmarshal into `Error`. -/
def decodeError : Json → Option Error
  | .obj fields =>
    match lookupField fields "message", lookupField fields "description" with
    | some (.str m), some (.str d) => some ⟨m, d⟩
    | some (.str m), none => some ⟨m, ""⟩
    | none, some (.str d) => some ⟨"", d⟩
    | none, none => some ⟨"", ""⟩
    | _, _ => none
  | _ => none

/-- json.Unmarshal into `ResponseData`. -/
def decodeResponseData : Json → Option ResponseData
  | .obj fields =>
    let dataPart := match lookupField fields "data" with
      | some j => decodeData j
      | none => some ⟨0⟩
    let errorPart := match lookupField fields "error" with
      | some j => decodeError j
      | none => some ⟨"", ""⟩
    match dataPart, errorPart with
    | some d, some e => some ⟨d, e⟩
    | _, _ => none
  | _ => none

/-- Prometheus counter operations issued by the handlers.  `touch` is a
bare `WithLabelValues` call (it creates or fetches the child counter but
adds nothing); `inc` is `WithLabelValues(...).Inc()`. -/
inductive CounterOp where
  | touch (method path code : String)
  | inc (method path code : String)
deriving DecidableEq, Repr

/-- Number of increments a list of counter operations applies to the
child counter with the given labels. -/
def incCount (ops : List CounterOp) (method path code : String) : Nat :=
  (ops.filter (fun op =>
    match op with
    | .inc m p c => m == method && p == path && c == code
    | .touch _ _ _ => false)).length

/-- Outcome of the Go `client.Do` call inside `callInventoryService`:
either a response arriving after the given duration, or an error after
the given duration (in which case Go returns a nil `*http.Response`). -/
inductive DoResult where
  | ok (durationMs : Nat)
  | fail (durationMs : Nat)
deriving DecidableEq, Repr

/-- Telemetry side effects of `callInventoryService`. -/
structure CallTelemetry where
  spanFinished : Bool
  errorLogged : Bool
deriving DecidableEq, Repr

/-- How `callInventoryService` terminates. -/
inductive CallOutcome where
  | returned (t : CallTelemetry)
  | panicked (t : CallTelemetry)
deriving DecidableEq, Repr

/-- A deferred call pending in `callInventoryService`: `finishSpan` is
the `defer span.Finish()`, `closeBody res` is the `defer res.Body.Close()`
where `res` is `none` when `client.Do` returned an error (Go nil). -/
inductive Deferred where
  | finishSpan
  | closeBody (res : Option Unit)
deriving DecidableEq, Repr

/-- State threaded through the deferred calls. -/
structure DeferState where
  panicking : Bool
  spanFinished : Bool
deriving DecidableEq, Repr

/-- Run the deferred calls in order (head = registered last, Go LIFO).
Calling `Close` through a nil response panics, but the remaining
deferred calls still run while the panic propagates. -/
def runDeferred : List Deferred → DeferState → DeferState
  | [], s => s
  | .finishSpan :: rest, s => runDeferred rest { s with spanFinished := true }
  | .closeBody res :: rest, s =>
    match res with
    | some _ => runDeferred rest s
    | none => runDeferred rest { s with panicking := true }

/-- `callInventoryService` (src/unnamed/part_001 lines 293-308): start a
child span with `defer span.Finish()`, build the outbound request,
inject the span context, call `client.Do`; when it errors, log via
`slog.Error`; finally `defer res.Body.Close()` is registered and the
deferred calls run on return. -/
def callInventoryService (doRes : DoResult) : CallOutcome :=
  let res : Option Unit := match doRes with | .ok _ => some () | .fail _ => none
  let errorLogged : Bool := match doRes with | .ok _ => false | .fail _ => true
  let final := runDeferred [.closeBody res, .finishSpan] ⟨false, false⟩
  if final.panicking then .panicked ⟨final.spanFinished, errorLogged⟩
  else .returned ⟨final.spanFinished, errorLogged⟩

/-- Fixed simulated latencies of the workflow steps (milliseconds). -/
def validationMs : Nat := 200

/-- `insertToDB` sleeps 500 ms. -/
def insertToDbMs : Nat := 500

/-- Sleep on the even (success) branch of `/orders`. -/
def successSleepMs : Nat := 100

/-- Sleep on the odd (failure) branch of `/orders`. -/
def failureSleepMs : Nat := 400

/-- The response value the `/orders` handler of part_001 builds for a
given random input: order id from `rand.Intn(1000)`, error message set
only on the odd branch. -/
def ordersResponseData (x : Nat) : ResponseData :=
  let orderId := randIntn 1000 x
  if orderId % 2 = 0 then ⟨⟨orderId⟩, ⟨"", ""⟩⟩
  else ⟨⟨orderId⟩, ⟨"failure, this is simulated by devs", ""⟩⟩

/-- Branch sleep chosen by the parity of the generated identifier. -/
def branchSleepMs (x : Nat) : Nat :=
  if randIntn 1000 x % 2 = 0 then successSleepMs else failureSleepMs

/-- Observable outcome of one completed `/orders` request (part_001). -/
structure OrdersOutcome where
  status : Nat
  response : ResponseData
  counterOps : List CounterOp
  summaryObs : List Nat
  histogramObs : List Nat
  branchDurationMs : Nat
  totalDurationMs : Nat
  failureLogEmitted : Bool
deriving DecidableEq, Repr

/-- The `/orders` handler of part_001 (lines 158-225).  Steps: root span;
validation sub-span (200 ms); `insertToDB` (500 ms, logs); then
`callInventoryService` — when that panics the handler aborts and no
response is written (net/http recovers the panic).  Otherwise
`startTime := time.Now()` is taken, the response value is built, the
parity branch sleeps, increments the counter, writes the response, and
the elapsed time since `startTime` is observed into the summary and the
histogram. -/
def ordersHandler (x : Nat) (doRes : DoResult) : Except CallTelemetry OrdersOutcome :=
  match callInventoryService doRes with
  | .panicked t => .error t
  | .returned _ =>
    let downstreamMs := match doRes with | .ok d => d | .fail d => d
    let orderId := randIntn 1000 x
    let response := ordersResponseData x
    let branch := branchSleepMs x
    if orderId % 2 = 0 then
      .ok { status := 200, response := response,
            counterOps := [.inc "POST" "/orders" "200"],
            summaryObs := [branch], histogramObs := [branch],
            branchDurationMs := branch,
            totalDurationMs := validationMs + insertToDbMs + downstreamMs + branch,
            failureLogEmitted := false }
    else
      .ok { status := 500, response := response,
            counterOps := [.inc "POST" "/orders" "500"],
            summaryObs := [branch], histogramObs := [branch],
            branchDurationMs := branch,
            totalDurationMs := validationMs + insertToDbMs + downstreamMs + branch,
            failureLogEmitted := true }

/-- Status of a completed `/orders` request, `none` when the handler
aborted before writing a response. -/
def statusOf (e : Except CallTelemetry OrdersOutcome) : Option Nat :=
  e.toOption.map (fun o => o.status)

/-- Response body of a completed `/orders` request. -/
def responseOf (e : Except CallTelemetry OrdersOutcome) : Option ResponseData :=
  e.toOption.map (fun o => o.response)

/-- Summary observations of a completed `/orders` request. -/
def summaryOf (e : Except CallTelemetry OrdersOutcome) : Option (List Nat) :=
  e.toOption.map (fun o => o.summaryObs)

/-- Histogram observations of a completed `/orders` request. -/
def histogramOf (e : Except CallTelemetry OrdersOutcome) : Option (List Nat) :=
  e.toOption.map (fun o => o.histogramObs)

/-- Total handling duration of a completed `/orders` request. -/
def totalOf (e : Except CallTelemetry OrdersOutcome) : Option Nat :=
  e.toOption.map (fun o => o.totalDurationMs)

/-- Counter operations of a completed `/orders` request. -/
def counterOpsOf (e : Except CallTelemetry OrdersOutcome) : Option (List CounterOp) :=
  e.toOption.map (fun o => o.counterOps)

/-- Observable outcome of one `/orders` request in the earlier variant
src/4_exposing_http_request_metric/golang-app/main.go. -/
structure OrdersV4Outcome where
  status : Nat
  response : ResponseData
  counterOps : List CounterOp
deriving DecidableEq, Repr

/-- The `/orders` handler of the 4_exposing variant (main.go lines
35-62): sleep 450 ms, build the response, branch on parity.  Both
branches call `metricCounter.WithLabelValues(...)` without `.Inc()`, so
the child counter is only created, never incremented. -/
def ordersHandlerV4 (x : Nat) : OrdersV4Outcome :=
  let orderId := randIntn 1000 x
  if orderId % 2 = 0 then
    { status := 200, response := ⟨⟨orderId⟩, ⟨"", ""⟩⟩,
      counterOps := [.touch "POST" "/orders" "200"] }
  else
    { status := 500,
      response := ⟨⟨orderId⟩, ⟨"failure, this is simulated by test devs", "error"⟩⟩,
      counterOps := [.touch "POST" "/orders" "500"] }

/-- Tick interval of the background simulation goroutine: 1 second,
modelled as 1000 one-millisecond steps. -/
def tickMs : Nat := 1000

/-- Program points of the background simulation goroutine
(src/unnamed/part_001 lines 125-137): the `select` at the top of the
loop, the gauge update in the `default` arm, the `time.Sleep`, and the
`return` after `ctx.Done()` fires. -/
inductive JobState where
  | atSelect
  | updatingGauge
  | sleeping (remainingMs : Nat)
  | exited
deriving DecidableEq, Repr

/-- One step of the goroutine under the current cancellation flag.  The
`select` observes cancellation (its `default` arm runs only when
`ctx.Done()` is not ready); `time.Sleep` is not interruptible by the
context, so a sleeping step just lets a millisecond pass. -/
def jobStep (cancelled : Bool) : JobState → JobState
  | .atSelect => if cancelled then .exited else .updatingGauge
  | .updatingGauge => .sleeping tickMs
  | .sleeping (n + 1) => .sleeping n
  | .sleeping 0 => .atSelect
  | .exited => .exited

/-- Run the goroutine from its start, with the cancellation signal
firing at step `cancelTime` (the flag consulted at step `n` is whether
`cancelTime ≤ n`). -/
def jobRun (cancelTime : Nat) : Nat → JobState
  | 0 => .atSelect
  | n + 1 => jobStep (decide (cancelTime ≤ n)) (jobRun cancelTime n)

/-- Iterate `jobStep` from a given state with the cancellation flag held
fixed. -/
def jobStepsFrom (cancelled : Bool) (s : JobState) : Nat → JobState
  | 0 => s
  | n + 1 => jobStepsFrom cancelled (jobStep cancelled s) n

/-- Events of the shutdown sequence in `main` (part_001 lines 246-263). -/
inductive ShutdownEvent where
  | logTerminationReceived
  | cancelSimulationJob
  | serverShutdown (deadlineMs : Nat)
  | logShutdownFailed
  | logStoppedGracefully
  | graceSleep (ms : Nat)
deriving DecidableEq, Repr

/-- The straight-line shutdown code after `<-sigCH`: log, cancel the
simulation job, `server.Shutdown` under a 5-second context, log the
drain outcome, sleep 2 seconds, and then `main` returns (the process
terminates when the list is exhausted). -/
def shutdownSequence (drainFailed : Bool) : List ShutdownEvent :=
  [.logTerminationReceived, .cancelSimulationJob, .serverShutdown 5000] ++
  (if drainFailed then [.logShutdownFailed] else [.logStoppedGracefully]) ++
  [.graceSleep 2000]

/-- Result of startup in `main` (part_001 lines 94-117). -/
inductive StartupResult where
  | serving (tracerInitErrorLogged : Bool)
  | abortedFatal
deriving DecidableEq, Repr

/-- Startup: `InitTracer` runs first; when `cfg.NewTracer` errors the
code only calls `slog.Error("failed to start tracer")` and continues.
Then `net.Dial` to Logstash; when that errors the code calls
`log.Fatalf`, which terminates the process. -/
def startup (tracerInitFails : Bool) (logstashDialFails : Bool) : StartupResult :=
  if logstashDialFails then .abortedFatal
  else .serving tracerInitFails

/-- Observable outcome of one `/internal/orders` request. -/
structure InternalOrdersOutcome where
  status : Nat
  body : String
  failureLogEmitted : Bool
  counterOps : List CounterOp
deriving DecidableEq, Repr

/-- The `/internal/orders` handler (part_001 lines 227-237): start and
finish a span, emit a synthetic failure log record, increment the
counter, and write status 200 with body `\x7b"data":\x7b\x7d\x7d`
regardless of the request. -/
def internalOrdersHandler (_r : String) : InternalOrdersOutcome :=
  { status := 200,
    body := "\x7b\"data\":\x7b\x7d\x7d",
    failureLogEmitted := true,
    counterOps := [.inc "GET" "/internal/orders" "200"] }

/-! Theorems. -/

/-- Claim C1: for every `/orders` request that completes (the downstream
call returned, so the handler was not aborted), the response status is
200 iff the generated identifier is even and 500 iff it is odd, and the
branch is decided solely by the identifier's parity. -/
theorem orders_status_parity (x d : Nat) :
    statusOf (ordersHandler x (DoResult.ok d)) =
      some (if randIntn 1000 x % 2 = 0 then 200 else 500) ∧
    (statusOf (ordersHandler x (DoResult.ok d)) = some 200 ↔
      randIntn 1000 x % 2 = 0) ∧
    (statusOf (ordersHandler x (DoResult.ok d)) = some 500 ↔
      randIntn 1000 x % 2 = 1) := by
  rcases Nat.mod_two_eq_zero_or_one (randIntn 1000 x) with h | h <;>
    simp [ordersHandler, statusOf, callInventoryService, runDeferred,
      Except.toOption, Option.map, h]

/-- Claim C2 (code bug in the 4_exposing variant): the handler of
src/4_exposing_http_request_metric/golang-app/main.go calls
`WithLabelValues` without `.Inc()`, so on a completed request neither
the success nor the failure counter is incremented, while part_001 does
increment the matching counter. -/
theorem orders_counter_not_incremented_v4 :
    (ordersHandlerV4 0).status = 200 ∧
    incCount (ordersHandlerV4 0).counterOps "POST" "/orders" "200" = 0 ∧
    incCount (ordersHandlerV4 0).counterOps "POST" "/orders" "500" = 0 ∧
    counterOpsOf (ordersHandler 0 (DoResult.ok 0)) =
      some [CounterOp.inc "POST" "/orders" "200"] := by
  refine ⟨rfl, rfl, rfl, rfl⟩

/-- Claim C3, counterexample: for the even identifier 0 the serialized
JSON still carries the `error` key (as an empty object); Go's
`omitempty` does not omit a struct-typed field. -/
theorem orders_error_key_present_for_even :
    responseOf (ordersHandler 0 (DoResult.ok 0)) = some (ordersResponseData 0) ∧
    randIntn 1000 0 % 2 = 0 ∧
    encodeResponseData (ordersResponseData 0) =
      Json.obj [("data", Json.obj [("order_id", Json.num 0)]),
                ("error", Json.obj [])] ∧
    hasKey (encodeResponseData (ordersResponseData 0)) "error" = true := by
  refine ⟨rfl, rfl, rfl, rfl⟩

/-- Claim C3 as amended: encoding then decoding the `/orders` response
body is the identity, `data.order_id` equals the generated identifier,
the error message is populated exactly for odd identifiers, but the
`error` key is always present in the serialized JSON (as `\x7b\x7d` for
even identifiers) rather than omitted. -/
theorem orders_json_roundtrip (x d : Nat) :
    responseOf (ordersHandler x (DoResult.ok d)) = some (ordersResponseData x) ∧
    decodeResponseData (encodeResponseData (ordersResponseData x)) =
      some (ordersResponseData x) ∧
    (ordersResponseData x).data.orderId = randIntn 1000 x ∧
    ((ordersResponseData x).error.message ≠ "" ↔ randIntn 1000 x % 2 = 1) ∧
    hasKey (encodeResponseData (ordersResponseData x)) "error" = true := by
  rcases Nat.mod_two_eq_zero_or_one (randIntn 1000 x) with h | h <;>
    simp [ordersHandler, responseOf, callInventoryService, runDeferred,
      Except.toOption, Option.map, ordersResponseData, encodeResponseData,
      encodeData, encodeError, decodeResponseData, decodeData, decodeError,
      lookupField, hasKey, h]

/-- Claim C4 (code bug): when `client.Do` errors the error is logged and
the child span is still finished during unwinding, but the deferred
`res.Body.Close()` dereferences the nil response and panics, so the
handler aborts and the request receives no well-formed response. -/
theorem call_inventory_panics_on_error :
    callInventoryService (DoResult.fail 0) =
      CallOutcome.panicked ⟨true, true⟩ ∧
    ordersHandler 7 (DoResult.fail 0) =
      Except.error ⟨true, true⟩ ∧
    statusOf (ordersHandler 7 (DoResult.fail 0)) = none := by
  refine ⟨rfl, rfl, rfl⟩

/-- Helper: `jobStep` lands on the gauge update only from the `select`
with the cancellation flag unset. -/
theorem jobStep_updating (c : Bool) (s : JobState)
    (h : jobStep c s = JobState.updatingGauge) :
    s = JobState.atSelect ∧ c = false := by
  cases s with
  | atSelect => cases c <;> simp [jobStep] at h ⊢
  | updatingGauge => simp [jobStep] at h
  | sleeping n => cases n <;> simp [jobStep] at h
  | exited => simp [jobStep] at h

set_option maxRecDepth 4000 in
/-- Claim C5, counterexample: cancellation does not interrupt the sleep.
With the cancellation flag set at the start of a full tick sleep, the
goroutine is still sleeping 500 steps later, only reaches the `select`
after the full 1000 ms sleep has elapsed, and exits one step after
that — cancellation is observed only before each sleep starts. -/
theorem job_sleep_not_interruptible :
    jobStep true (JobState.sleeping tickMs) = JobState.sleeping 999 ∧
    jobStepsFrom true (JobState.sleeping tickMs) 500 = JobState.sleeping 500 ∧
    jobStepsFrom true (JobState.sleeping tickMs) 500 ≠ JobState.exited ∧
    jobStepsFrom true (JobState.sleeping tickMs) 1001 = JobState.atSelect ∧
    jobStepsFrom true (JobState.sleeping tickMs) 1002 = JobState.exited := by
  refine ⟨rfl, by decide, by decide, by decide, by decide⟩

/-- Claim C5 as amended: after the cancellation signal fires no further
gauge updates occur at all (the `select` guarding the update observes
the flag first), and in particular none once one tick interval has
elapsed; the promptness comes from the loop structure, not from an
interruptible sleep. -/
theorem job_no_updates_after_cancel (cancelTime n : Nat)
    (h : cancelTime + 1 ≤ n) : jobRun cancelTime n ≠ JobState.updatingGauge := by
  intro hu
  cases n with
  | zero => omega
  | succ m =>
    have hstep := jobStep_updating (decide (cancelTime ≤ m)) (jobRun cancelTime m) hu
    have : ¬ (cancelTime ≤ m) := by
      intro hle
      have := hstep.2
      simp [hle] at this
    omega

/-- Witness for `job_no_updates_after_cancel` at cancellation time 0 and
step 1. -/
theorem job_no_updates_after_cancel_witness :
    (0 : Nat) + 1 ≤ 1 ∧ jobRun 0 1 ≠ JobState.updatingGauge :=
  ⟨by decide, job_no_updates_after_cancel 0 1 (by decide)⟩

/-- Claim C6, counterexample: for identifier 0 with an instantaneous
downstream call, both instruments observe 100 ms (the success-branch
sleep alone) while the total handling duration is 800 ms (200 ms
validation + 500 ms insert + branch), because `startTime` is taken only
after the downstream call. -/
theorem orders_observation_not_total :
    summaryOf (ordersHandler 0 (DoResult.ok 0)) = some [100] ∧
    histogramOf (ordersHandler 0 (DoResult.ok 0)) = some [100] ∧
    totalOf (ordersHandler 0 (DoResult.ok 0)) = some 800 ∧
    (100 : Nat) ≠ 800 := by
  refine ⟨rfl, rfl, rfl, by decide⟩

/-- Claim C6 as amended: on every completed `/orders` request the
summary and the histogram each receive exactly one observation and the
two observations are equal, but the observed value is only the response
branch's duration (100 ms on success, 400 ms on failure), not the total
handling duration, which additionally contains the validation,
persistence and downstream steps. -/
theorem orders_observation_branch_only (x d : Nat) :
    summaryOf (ordersHandler x (DoResult.ok d)) = some [branchSleepMs x] ∧
    histogramOf (ordersHandler x (DoResult.ok d)) = some [branchSleepMs x] ∧
    totalOf (ordersHandler x (DoResult.ok d)) =
      some (validationMs + insertToDbMs + d + branchSleepMs x) ∧
    branchSleepMs x = (if randIntn 1000 x % 2 = 0 then 100 else 400) := by
  rcases Nat.mod_two_eq_zero_or_one (randIntn 1000 x) with h | h <;>
    simp [ordersHandler, summaryOf, histogramOf, totalOf, callInventoryService,
      runDeferred, Except.toOption, Option.map, branchSleepMs, successSleepMs,
      failureSleepMs, h]

/-- Claim C7: the shutdown sequence is in the fixed order cancel the
background job, then drain the HTTP server under a 5000 ms deadline,
then sleep the 2000 ms grace period as the final event before the
process exits; when the drain deadline elapses the failure is reported
and the sequence still runs to completion. -/
theorem shutdown_sequence_order :
    (∀ b : Bool,
      (shutdownSequence b).indexOf ShutdownEvent.cancelSimulationJob = 1 ∧
      (shutdownSequence b).indexOf (ShutdownEvent.serverShutdown 5000) = 2 ∧
      (shutdownSequence b).indexOf (ShutdownEvent.graceSleep 2000) = 4 ∧
      (shutdownSequence b).getLast? = some (ShutdownEvent.graceSleep 2000)) ∧
    ShutdownEvent.logShutdownFailed ∈ shutdownSequence true ∧
    ShutdownEvent.logStoppedGracefully ∈ shutdownSequence false := by
  decide

/-- Claim C8, counterexample: when the tracer connection fails but the
Logstash dial succeeds, startup proceeds to serve (the failure is only
logged), contradicting the claim that either infrastructure failure
aborts startup. -/
theorem startup_serves_despite_tracer_failure :
    startup true false = StartupResult.serving true ∧
    startup true false ≠ StartupResult.abortedFatal := by
  decide

/-- Claim C8 as amended: only the log-sink connection failure at startup
is fatal (`log.Fatalf` aborts the process); a tracer initialization
failure is merely logged and the process proceeds to serve. -/
theorem startup_fatal_only_logstash : ∀ t : Bool,
    startup t true = StartupResult.abortedFatal ∧
    startup t false = StartupResult.serving t := by
  decide

/-- Claim C9: every `/internal/orders` request, whatever the input,
emits the synthetic failure log entry and is answered with status 200
and the exact body `\x7b"data":\x7b\x7d\x7d`. -/
theorem internal_orders_constant_response (r : String) :
    (internalOrdersHandler r).status = 200 ∧
    (internalOrdersHandler r).body = "\x7b\"data\":\x7b\x7d\x7d" ∧
    (internalOrdersHandler r).failureLogEmitted = true := by
  refine ⟨rfl, rfl, rfl⟩

/-- Claim C10: the generated order identifier is always in `[0, 1000)`
(it is `rand.Intn(1000)`, never negative), so the `order_id` carried by
every `/orders` response body lies in that range. -/
theorem orders_orderid_range (x d : Nat) :
    responseOf (ordersHandler x (DoResult.ok d)) = some (ordersResponseData x) ∧
    (ordersResponseData x).data.orderId < 1000 := by
  constructor
  · rcases Nat.mod_two_eq_zero_or_one (randIntn 1000 x) with h | h <;>
      simp [ordersHandler, responseOf, callInventoryService, runDeferred,
        Except.toOption, Option.map, h]
  · have horder : (ordersResponseData x).data.orderId = randIntn 1000 x := by
      rcases Nat.mod_two_eq_zero_or_one (randIntn 1000 x) with h | h <;>
        simp [ordersResponseData, h]
    rw [horder]
    exact Nat.mod_lt x (by decide)

end GoApp
